import Mathlib

/-!
Shallow embedding of the health-connect-api backend (src/index.js).

Rows of the six database tables are records; the database is a structure of
six lists, one per table, in table (store) order.  A SELECT with a WHERE
clause is List.filter in table order; ORDER BY key DESC is a sort by the
key, descending; LIMIT 1 is List.take 1; rows[0] is List.head?.  Timestamps
are Nat; all other column values pass through the handlers uninterpreted and
are modelled as String (profile_photo_path, which the code sets to null or a
path, is Option String).  JSON null is modelled as Option.none.
-/

namespace HealthConnect

/-- Row of the patients table (columns of the INSERT in POST /patients). -/
structure PatientRow where
  patient_id : Nat
  full_name : String
  birth_date : String
  gender : String
  national_id : String
  nationality : String
  language_spoken : String
  blood_type : String
  profile_photo_path : Option String
  deriving DecidableEq, Repr

/-- Row of the contact_info table (columns of PUT /patients/:id/contact_info;
created_at is assigned by the store and read by the ORDER BY of the GET). -/
structure ContactInfoRow where
  patient_id : Nat
  phone : String
  email : String
  address : String
  emergency_name : String
  emergency_relation : String
  emergency_phone : String
  created_at : Nat
  deriving DecidableEq, Repr

/-- Row of the medical_history table. -/
structure MedicalHistoryRow where
  patient_id : Nat
  allergies : String
  current_medications : String
  past_medical_history : String
  surgical_history : String
  family_history : String
  immunization_records : String
  chronic_conditions : String
  mental_health_conditions : String
  created_at : Nat
  deriving DecidableEq, Repr

/-- Row of the visits table. -/
structure VisitRow where
  patient_id : Nat
  visit_date : Nat
  doctor_name : String
  reason : String
  diagnosis : String
  treatment : String
  deriving DecidableEq, Repr

/-- Row of the vitals table (recorded_at is set by the PUT handler, new Date()). -/
structure VitalsRow where
  patient_id : Nat
  temperature : String
  blood_pressure : String
  heart_rate : String
  height_cm : String
  weight_kg : String
  notes : String
  recorded_at : Nat
  deriving DecidableEq, Repr

/-- Row of the clinical_documents table. -/
structure ClinicalDocumentRow where
  patient_id : Nat
  document_name : String
  upload_date : Nat
  file_type : String
  file_path : String
  deriving DecidableEq, Repr

/-- The six tables, each in store order. -/
structure Database where
  patients : List PatientRow
  contact_info : List ContactInfoRow
  medical_history : List MedicalHistoryRow
  visits : List VisitRow
  vitals : List VitalsRow
  clinical_documents : List ClinicalDocumentRow
  deriving DecidableEq, Repr

/-- ORDER BY key DESC: sort by the Nat key, largest first. -/
def orderByDesc {α : Type} (key : α → Nat) (l : List α) : List α :=
  @List.insertionSort α (fun a b => key b ≤ key a)
    (fun a b => Nat.decLe (key b) (key a)) l

/-- SELECT * FROM patients WHERE patient_id = $1, taking rows[0]
(the handlers test rows.length === 0 and otherwise use rows[0]). -/
def findPatient (db : Database) (id : Nat) : Option PatientRow :=
  (db.patients.filter (fun p => p.patient_id = id)).head?

/-- SELECT * FROM vitals WHERE patient_id = $1 ORDER BY recorded_at DESC,
shared text of the query of GET /patients/:id/vitals (which adds LIMIT 1)
and of the fan-out query of GET /patients/:id/full. -/
def vitalsDescRows (db : Database) (id : Nat) : List VitalsRow :=
  orderByDesc (fun v => v.recorded_at) (db.vitals.filter (fun r => r.patient_id = id))

/-- GET /patients/:id/vitals: the LIMIT 1 query; none models the empty-object
response for an empty result set. -/
def getVitals (db : Database) (id : Nat) : Option VitalsRow :=
  ((vitalsDescRows db id).take 1).head?

/-- GET /patients/:id/contact_info: ORDER BY created_at DESC LIMIT 1. -/
def getContactInfo (db : Database) (id : Nat) : Option ContactInfoRow :=
  ((orderByDesc (fun r => r.created_at)
      (db.contact_info.filter (fun r => r.patient_id = id))).take 1).head?

/-- GET /patients/:id/clinical_documents: ORDER BY upload_date DESC. -/
def getClinicalDocuments (db : Database) (id : Nat) : List ClinicalDocumentRow :=
  orderByDesc (fun d => d.upload_date)
    (db.clinical_documents.filter (fun r => r.patient_id = id))

/-- Body of PUT /patients/:id/contact_info. -/
structure ContactPayload where
  phone : String
  email : String
  address : String
  emergency_name : String
  emergency_relation : String
  emergency_phone : String
  deriving DecidableEq, Repr

/-- The six submitted columns of a contact_info row, server-assigned fields
(patient_id binding and created_at) excluded. -/
def contactPayloadOf (r : ContactInfoRow) : ContactPayload :=
  { phone := r.phone, email := r.email, address := r.address,
    emergency_name := r.emergency_name, emergency_relation := r.emergency_relation,
    emergency_phone := r.emergency_phone }

/-- PUT /patients/:id/contact_info: INSERT INTO contact_info ... RETURNING *.
The SQL does not list created_at; the store assigns it, passed here as the
created_at argument.  Returns the new database and the RETURNING row. -/
def putContactInfo (db : Database) (id : Nat) (p : ContactPayload) (created_at : Nat) :
    Database × ContactInfoRow :=
  let row : ContactInfoRow :=
    { patient_id := id, phone := p.phone, email := p.email, address := p.address,
      emergency_name := p.emergency_name, emergency_relation := p.emergency_relation,
      emergency_phone := p.emergency_phone, created_at := created_at }
  ({ db with contact_info := db.contact_info ++ [row] }, row)

/-- The five queries of the Promise.all fan-out in GET /patients/:id/full,
in source order. -/
inductive SubQuery where
  | contactInfo
  | clinicalDocuments
  | medicalHistory
  | visits
  | vitals
  deriving DecidableEq, Repr

/-- The fan-out list in source order. -/
def allSubQueries : List SubQuery :=
  [SubQuery.contactInfo, SubQuery.clinicalDocuments, SubQuery.medicalHistory,
   SubQuery.visits, SubQuery.vitals]

/-- The fault-free oracle: every sub-query succeeds. -/
def noFaults : SubQuery → Bool := fun _ => false

/-- The composite body assembled by GET /patients/:id/full. -/
structure FullProfile where
  patient : PatientRow
  contact_info : Option ContactInfoRow
  clinical_documents : List ClinicalDocumentRow
  medical_history : List MedicalHistoryRow
  visits : List VisitRow
  vitals : Option VitalsRow
  deriving DecidableEq, Repr

/-- Outcome of GET /patients/:id/full: 404, 500 (the catch branch, reached
when any awaited query rejects), or 200 with the composite. -/
inductive FullResult where
  | notFound
  | serverError
  | ok (profile : FullProfile)
  deriving DecidableEq, Repr

/-- GET /patients/:id/full.  The handler first runs the patient query; on an
empty result it answers 404 before any fan-out query is issued.  Otherwise
Promise.all issues the five sub-table queries; the faults oracle says which
of them reject, and any rejection sends the handler to its catch branch
(500).  The second component is the list of fan-out queries issued.  The
contact_info, clinical_documents and medical_history queries carry no ORDER
BY, so their rows come back in store order; visits and vitals are ordered
descending; contact_info and vitals take rows[0] with null for undefined. -/
def fullHandler (db : Database) (faults : SubQuery → Bool) (id : Nat) :
    FullResult × List SubQuery :=
  match findPatient db id with
  | none => (.notFound, [])
  | some patient =>
    if allSubQueries.any faults then
      (.serverError, allSubQueries)
    else
      (.ok
        { patient := patient
          contact_info := (db.contact_info.filter (fun r => r.patient_id = id)).head?
          clinical_documents := db.clinical_documents.filter (fun r => r.patient_id = id)
          medical_history := db.medical_history.filter (fun r => r.patient_id = id)
          visits := orderByDesc (fun v => v.visit_date)
            (db.visits.filter (fun r => r.patient_id = id))
          vitals := (vitalsDescRows db id).head? },
       allSubQueries)

/-- The composite of GET /patients/:id/full in the fault-free run, none on 404. -/
def fullProfile? (db : Database) (id : Nat) : Option FullProfile :=
  match (fullHandler db noFaults id).1 with
  | .ok p => some p
  | _ => none

/-- An uploaded multipart file as multer presents it to a handler. -/
structure UploadedFile where
  originalname : String
  mimetype : String
  deriving DecidableEq, Repr

/-- The allow-list of the fileFilter for profile photos. -/
def allowedTypes : List String :=
  ["image/jpeg", "image/png", "image/jpg", "image/webp"]

/-- fileFilter: accept when the declared MIME type is in the allow-list. -/
def fileFilterAccepts (mimetype : String) : Bool :=
  allowedTypes.contains mimetype

/-- path.extname: the suffix starting at the last dot, or the empty string
when the name has no dot (leading-dot and separator corner cases of the
Node version are not needed by any claim). -/
def extname (s : String) : String :=
  let tail := s.toList.reverse.takeWhile (fun c => c ≠ '.')
  if tail.length = s.toList.length then "" else String.mk ('.' :: tail.reverse)

/-- Profile-photo filename scheme of the multer storage:
patient_{id}_{Date.now()}{ext}. -/
def photoFilename (id : Nat) (now : Nat) (ext : String) : String :=
  "patient_" ++ toString id ++ "_" ++ toString now ++ ext

/-- Database plus the set of files multer has written to disk. -/
structure UploadState where
  db : Database
  disk : List String
  deriving DecidableEq, Repr

/-- Outcome of POST /patients/:id/photo: the multer fileFilter error (request
rejected before any write), the TypeError thrown by reading filename of an
undefined req.file (no response constructed), or the 200 success body. -/
inductive PhotoOutcome where
  | rejectedInvalidType
  | crashUndefinedFile
  | ok (profile_photo_path : String)
  deriving DecidableEq, Repr

/-- UPDATE patients SET profile_photo_path = $1 WHERE patient_id = $2. -/
def updatePhotoPath (patients : List PatientRow) (id : Nat) (newPath : String) :
    List PatientRow :=
  patients.map (fun p =>
    if p.patient_id = id then { p with profile_photo_path := some newPath } else p)

/-- POST /patients/:id/photo.  multer runs first: with no file part, req.file
is undefined and the handler line req.file.filename throws; with a file whose
MIME type the fileFilter refuses, the request fails with the Invalid file
type error and nothing is written; otherwise multer writes the file to disk,
then the handler issues the UPDATE and answers success unconditionally
(it never checks how many rows matched). -/
def postPhotoHandler (st : UploadState) (id : Nat) (file : Option UploadedFile)
    (now : Nat) : PhotoOutcome × UploadState :=
  match file with
  | none => (.crashUndefinedFile, st)
  | some f =>
    if fileFilterAccepts f.mimetype then
      let fname := photoFilename id now (extname f.originalname)
      let relativePath := "/uploads/profilephotos/" ++ fname
      (.ok relativePath,
       { db := { st.db with patients := updatePhotoPath st.db.patients id relativePath }
         disk := st.disk ++ [fname] })
    else
      (.rejectedInvalidType, st)

/-- Outcome of POST /patients/:id/clinical_documents. -/
inductive DocsOutcome where
  | badRequest
  | created (row : ClinicalDocumentRow)
  deriving DecidableEq, Repr

/-- POST /patients/:id/clinical_documents.  Its multer instance has no
fileFilter; when a file is present it is written with filename
Date.now() + ext and the row is inserted; when req.file is undefined the
handler answers 400 No file uploaded. -/
def postClinicalDocumentHandler (st : UploadState) (id : Nat) (docName : String)
    (file : Option UploadedFile) (now : Nat) : DocsOutcome × UploadState :=
  match file with
  | none => (.badRequest, st)
  | some f =>
    let fname := toString now ++ extname f.originalname
    let row : ClinicalDocumentRow :=
      { patient_id := id, document_name := docName, upload_date := now,
        file_type := f.mimetype, file_path := "uploads/clinicaldocs/" ++ fname }
    (.created row,
     { db := { st.db with clinical_documents := st.db.clinical_documents ++ [row] }
       disk := st.disk ++ [fname] })

/-! Concrete data for witnesses and counterexamples. -/

/-- A patient with identifier 1. -/
def pat1 : PatientRow :=
  { patient_id := 1, full_name := "Ada", birth_date := "1990-01-01", gender := "F",
    national_id := "N1", nationality := "EG", language_spoken := "ar",
    blood_type := "O+", profile_photo_path := none }

/-- A database with no rows at all. -/
def emptyDb : Database :=
  { patients := [], contact_info := [], medical_history := [], visits := [],
    vitals := [], clinical_documents := [] }

/-- A database holding only patient 1. -/
def dbOnlyPat : Database := { emptyDb with patients := [pat1] }

/-- Vitals snapshot of patient 1 at time 10. -/
def vitalsT10 : VitalsRow :=
  { patient_id := 1, temperature := "36.6", blood_pressure := "120/80",
    heart_rate := "70", height_cm := "170", weight_kg := "70", notes := "a",
    recorded_at := 10 }

/-- Vitals snapshot of patient 1 at time 20. -/
def vitalsT20 : VitalsRow := { vitalsT10 with notes := "b", recorded_at := 20 }

/-- Vitals snapshot of patient 1 at time 30, the most recent of the three. -/
def vitalsT30 : VitalsRow := { vitalsT10 with notes := "c", recorded_at := 30 }

/-- Patient 1 with three vitals snapshots at distinct timestamps, stored out
of timestamp order. -/
def dbThreeVitals : Database :=
  { dbOnlyPat with vitals := [vitalsT10, vitalsT30, vitalsT20] }

/-- Clinical document of patient 1 uploaded at time 5, first in store order. -/
def docOld : ClinicalDocumentRow :=
  { patient_id := 1, document_name := "old scan", upload_date := 5,
    file_type := "application/pdf", file_path := "uploads/clinicaldocs/5.pdf" }

/-- Clinical document of patient 1 uploaded at time 9, second in store order. -/
def docNew : ClinicalDocumentRow :=
  { patient_id := 1, document_name := "new scan", upload_date := 9,
    file_type := "application/pdf", file_path := "uploads/clinicaldocs/9.pdf" }

/-- Patient 1 with two documents whose store order is the reverse of
upload-date-descending order. -/
def dbTwoDocs : Database := { dbOnlyPat with clinical_documents := [docOld, docNew] }

/-- Contact row of patient 1 created at time 5, first in store order. -/
def contactT5 : ContactInfoRow :=
  { patient_id := 1, phone := "111", email := "a@x", address := "A",
    emergency_name := "E", emergency_relation := "sister",
    emergency_phone := "222", created_at := 5 }

/-- Contact row of patient 1 created at time 9, second in store order and the
most recent one. -/
def contactT9 : ContactInfoRow := { contactT5 with phone := "333", created_at := 9 }

/-- Patient 1 with two contact rows whose store order puts the older first. -/
def dbTwoContacts : Database := { dbOnlyPat with contact_info := [contactT5, contactT9] }

/-- A visit of patient 1. -/
def visit1 : VisitRow :=
  { patient_id := 1, visit_date := 3, doctor_name := "Dr. Who", reason := "flu",
    diagnosis := "flu", treatment := "rest" }

/-- Patient 1 with one visit and no contact info, vitals or documents. -/
def dbOneVisit : Database := { dbOnlyPat with visits := [visit1] }

/-- A fault oracle failing exactly the visits sub-query. -/
def visitsFault : SubQuery → Bool := fun q =>
  match q with
  | .visits => true
  | _ => false

/-- A payload for the contact-info round trip. -/
def payloadW : ContactPayload :=
  { phone := "555", email := "w@x", address := "W", emergency_name := "M",
    emergency_relation := "mother", emergency_phone := "666" }

/-- An accepted png upload. -/
def filePng : UploadedFile := { originalname := "me.png", mimetype := "image/png" }

/-- A rejected pdf upload. -/
def filePdf : UploadedFile := { originalname := "me.pdf", mimetype := "application/pdf" }

/-- Upload state over the one-patient database with an empty disk. -/
def stOnlyPat : UploadState := { db := dbOnlyPat, disk := [] }

/-- Upload state over the empty database with an empty disk. -/
def stEmpty : UploadState := { db := emptyDb, disk := [] }

/-! Helper lemmas. -/

/-- LIMIT 1 then rows[0] is the same as rows[0] of the unlimited list. -/
theorem take_one_head {α : Type} (l : List α) : (l.take 1).head? = l.head? := by
  cases l with
  | nil => rfl
  | cons a t => rfl

/-- orderByDesc permutes its input. -/
theorem orderByDesc_perm {α : Type} (key : α → Nat) (l : List α) :
    (orderByDesc key l).Perm l := by
  exact List.perm_insertionSort _ l

/-- orderByDesc sorts by the key, largest first. -/
theorem orderByDesc_sorted {α : Type} (key : α → Nat) (l : List α) :
    List.Sorted (fun a b => key b ≤ key a) (orderByDesc key l) := by
  haveI : IsTotal α (fun a b => key b ≤ key a) :=
    ⟨fun a b => Nat.le_total (key b) (key a)⟩
  haveI : IsTrans α (fun a b => key b ≤ key a) :=
    ⟨fun _ _ _ hab hbc => Nat.le_trans hbc hab⟩
  exact List.sorted_insertionSort _ l

/-- The head of the descending sort is the element whose key strictly
dominates every other element of the list. -/
theorem orderByDesc_head_of_strict_max {α : Type} (key : α → Nat) (l : List α)
    (x : α) (hx : x ∈ l) (hmax : ∀ y ∈ l, y ≠ x → key y < key x) :
    (orderByDesc key l).head? = some x := by
  have hperm := orderByDesc_perm key l
  have hsorted := orderByDesc_sorted key l
  have hmem : x ∈ orderByDesc key l := hperm.mem_iff.mpr hx
  have hne : orderByDesc key l ≠ [] := List.ne_nil_of_mem hmem
  obtain ⟨h, t, hs⟩ := List.exists_cons_of_ne_nil hne
  have hhl : h ∈ l := hperm.mem_iff.mp (by rw [hs]; exact List.mem_cons_self h t)
  rw [hs] at hmem hsorted ⊢
  by_cases hhx : h = x
  · rw [hhx]; rfl
  · have hlt : key h < key x := hmax h hhl hhx
    rcases List.mem_cons.mp hmem with he | ht
    · exact absurd he.symm hhx
    · have hle : key x ≤ key h := (List.sorted_cons.mp hsorted).1 x ht
      omega

/-- With an existing patient and no faults, the full-profile handler answers
200 with the composite and issues the whole fan-out. -/
theorem fullHandler_of_found (db : Database) (faults : SubQuery → Bool) (id : Nat)
    (patient : PatientRow) (hf : findPatient db id = some patient)
    (hok : allSubQueries.any faults = false) :
    fullHandler db faults id =
      (.ok
        { patient := patient
          contact_info := (db.contact_info.filter (fun r => r.patient_id = id)).head?
          clinical_documents := db.clinical_documents.filter (fun r => r.patient_id = id)
          medical_history := db.medical_history.filter (fun r => r.patient_id = id)
          visits := orderByDesc (fun v => v.visit_date)
            (db.visits.filter (fun r => r.patient_id = id))
          vitals := (vitalsDescRows db id).head? },
       allSubQueries) := by
  unfold fullHandler
  rw [hf]
  simp [hok]

/-- Composite of the fault-free run for an existing patient. -/
theorem fullProfile_of_found (db : Database) (id : Nat) (patient : PatientRow)
    (hf : findPatient db id = some patient) :
    fullProfile? db id =
      some
        { patient := patient
          contact_info := (db.contact_info.filter (fun r => r.patient_id = id)).head?
          clinical_documents := db.clinical_documents.filter (fun r => r.patient_id = id)
          medical_history := db.medical_history.filter (fun r => r.patient_id = id)
          visits := orderByDesc (fun v => v.visit_date)
            (db.visits.filter (fun r => r.patient_id = id))
          vitals := (vitalsDescRows db id).head? } := by
  unfold fullProfile?
  rw [fullHandler_of_found db noFaults id patient hf (by decide)]

/-- An UPDATE whose WHERE clause matches no row leaves the table unchanged. -/
theorem updatePhotoPath_no_match (l : List PatientRow) (id : Nat) (newPath : String)
    (h : ∀ p ∈ l, p.patient_id ≠ id) : updatePhotoPath l id newPath = l := by
  induction l with
  | nil => rfl
  | cons a t ih =>
    have ha := h a (List.mem_cons_self a t)
    have ht := ih (fun p hp => h p (List.mem_cons_of_mem a hp))
    simp only [updatePhotoPath, List.map_cons] at ht ⊢
    rw [if_neg ha, ht]

/-- Every sub-query is in the fan-out list. -/
theorem mem_allSubQueries (q : SubQuery) : q ∈ allSubQueries := by
  cases q <;> decide

/-! Claim theorems. -/

/-- C1: for every database and every existing patient, the row selected by
GET /patients/:id/vitals (ORDER BY recorded_at DESC LIMIT 1) equals the
vitals field of the composite of GET /patients/:id/full, which fetches the
whole history ordered by recorded_at descending and takes the head in
application logic. -/
theorem vitals_endpoint_agrees_with_full (db : Database) (id : Nat)
    (patient : PatientRow) (hf : findPatient db id = some patient) :
    (fullProfile? db id).map (fun p => p.vitals) = some (getVitals db id) := by
  rw [fullProfile_of_found db id patient hf]
  unfold getVitals
  rw [take_one_head]
  rfl

/-- C1 witness: after three snapshots at distinct timestamps, both endpoints
give the snapshot recorded at time 30. -/
theorem vitals_endpoint_agrees_with_full_witness :
    findPatient dbThreeVitals 1 = some pat1 ∧
    (fullProfile? dbThreeVitals 1).map (fun p => p.vitals) =
      some (getVitals dbThreeVitals 1) ∧
    getVitals dbThreeVitals 1 = some vitalsT30 :=
  ⟨by decide, vitals_endpoint_agrees_with_full dbThreeVitals 1 pat1 (by decide),
   by decide⟩

/-- C2: when no patient row has the given identifier, GET /patients/:id/full
answers 404 and issues none of the five sub-table queries, whatever the
fault oracle would have done to them. -/
theorem full_missing_patient_404_no_subqueries (db : Database)
    (faults : SubQuery → Bool) (id : Nat) (hf : findPatient db id = none) :
    fullHandler db faults id = (.notFound, []) := by
  unfold fullHandler
  rw [hf]

/-- C2 witness: the empty database at identifier 7. -/
theorem full_missing_patient_404_witness :
    findPatient emptyDb 7 = none ∧
    fullHandler emptyDb noFaults 7 = (.notFound, []) :=
  ⟨by decide, full_missing_patient_404_no_subqueries emptyDb noFaults 7 (by decide)⟩

/-- C3 counterexample: with two documents stored oldest first, the composite
keeps store order [docOld, docNew], which is not the upload-date-descending
order, so the clinical_documents field of the composite is not the list
ordered by upload date descending. -/
theorem full_docs_sorted_counterexample :
    findPatient dbTwoDocs 1 = some pat1 ∧
    (fullProfile? dbTwoDocs 1).map (fun p => p.clinical_documents) =
      some [docOld, docNew] ∧
    docOld.upload_date < docNew.upload_date ∧
    ¬ ((fullProfile? dbTwoDocs 1).map (fun p => p.clinical_documents) =
        some (orderByDesc (fun d => d.upload_date)
          (dbTwoDocs.clinical_documents.filter (fun r => r.patient_id = 1)))) := by
  decide

/-- C3 amended: the clinical_documents field of the composite is the full
list of the rows of the patient in store order; the query of the aggregate
carries no ORDER BY. -/
theorem full_docs_store_order (db : Database) (id : Nat) (patient : PatientRow)
    (hf : findPatient db id = some patient) :
    (fullProfile? db id).map (fun p => p.clinical_documents) =
      some (db.clinical_documents.filter (fun r => r.patient_id = id)) := by
  rw [fullProfile_of_found db id patient hf]
  rfl

/-- C3 amended witness: the two-document database. -/
theorem full_docs_store_order_witness :
    findPatient dbTwoDocs 1 = some pat1 ∧
    (fullProfile? dbTwoDocs 1).map (fun p => p.clinical_documents) =
      some (dbTwoDocs.clinical_documents.filter (fun r => r.patient_id = 1)) :=
  ⟨by decide, full_docs_store_order dbTwoDocs 1 pat1 (by decide)⟩

/-- C4 counterexample: with two contact rows stored oldest first, the
composite takes rows[0] of an unordered query and answers the older row,
while the most recent row (and the answer of GET /patients/:id/contact_info,
which does order by created_at descending) is the newer one. -/
theorem full_contact_latest_counterexample :
    findPatient dbTwoContacts 1 = some pat1 ∧
    (fullProfile? dbTwoContacts 1).map (fun p => p.contact_info) =
      some (some contactT5) ∧
    contactT5.created_at < contactT9.created_at ∧
    contactT9 ∈ dbTwoContacts.contact_info ∧
    getContactInfo dbTwoContacts 1 = some contactT9 ∧
    ¬ ((fullProfile? dbTwoContacts 1).map (fun p => p.contact_info) =
        some (some contactT9)) := by
  decide

/-- C4 amended: the contact_info field of the composite is the first of the
rows of the patient in store order (the query of the aggregate has no ORDER
BY and the handler takes rows[0]), or null when the patient has none. -/
theorem full_contact_store_head (db : Database) (id : Nat) (patient : PatientRow)
    (hf : findPatient db id = some patient) :
    (fullProfile? db id).map (fun p => p.contact_info) =
      some ((db.contact_info.filter (fun r => r.patient_id = id)).head?) := by
  rw [fullProfile_of_found db id patient hf]
  rfl

/-- C4 amended witness: the two-contact-row database. -/
theorem full_contact_store_head_witness :
    findPatient dbTwoContacts 1 = some pat1 ∧
    (fullProfile? dbTwoContacts 1).map (fun p => p.contact_info) =
      some ((dbTwoContacts.contact_info.filter (fun r => r.patient_id = 1)).head?) :=
  ⟨by decide, full_contact_store_head dbTwoContacts 1 pat1 (by decide)⟩

/-- C5 counterexample: for an existing patient the fan-out issues five
sub-table reads, not four. -/
theorem full_four_reads_counterexample :
    findPatient dbOnlyPat 1 = some pat1 ∧
    (fullHandler dbOnlyPat noFaults 1).2.length = 5 ∧
    ¬ ((fullHandler dbOnlyPat noFaults 1).2.length = 4) := by
  decide

/-- C5 amended: after the existence check succeeds the handler issues
exactly five concurrent sub-table reads, and any individual failure makes
the whole request answer 500 with no partial composite. -/
theorem full_five_reads_all_or_nothing (db : Database) (faults : SubQuery → Bool)
    (id : Nat) (patient : PatientRow) (hf : findPatient db id = some patient) :
    (fullHandler db faults id).2 = allSubQueries ∧
    allSubQueries.length = 5 ∧
    ∀ q : SubQuery, faults q = true → (fullHandler db faults id).1 = .serverError := by
  refine ⟨?_, by decide, ?_⟩
  · unfold fullHandler
    rw [hf]
    by_cases hb : allSubQueries.any faults <;> simp [hb]
  · intro q hq
    have hany : allSubQueries.any faults = true :=
      List.any_eq_true.mpr ⟨q, mem_allSubQueries q, hq⟩
    unfold fullHandler
    rw [hf]
    simp [hany]

/-- C5 amended witness: a fault on the visits read fails the whole request. -/
theorem full_five_reads_all_or_nothing_witness :
    findPatient dbOnlyPat 1 = some pat1 ∧
    ((fullHandler dbOnlyPat visitsFault 1).2 = allSubQueries ∧
     allSubQueries.length = 5 ∧
     ∀ q : SubQuery, visitsFault q = true →
       (fullHandler dbOnlyPat visitsFault 1).1 = .serverError) :=
  ⟨by decide, full_five_reads_all_or_nothing dbOnlyPat visitsFault 1 pat1 (by decide)⟩

/-- C6: an upload whose declared MIME type is outside the allow-list is
rejected with the invalid-file-type error and the whole state is unchanged:
nothing on disk, no table touched, the profile_photo_path of every patient
as before. -/
theorem photo_bad_mime_rejected (st : UploadState) (id : Nat) (f : UploadedFile)
    (now : Nat) (h : fileFilterAccepts f.mimetype = false) :
    (postPhotoHandler st id (some f) now).1 = .rejectedInvalidType ∧
    (postPhotoHandler st id (some f) now).2 = st := by
  unfold postPhotoHandler
  simp [h]

/-- C6 witness: a pdf upload against the one-patient state. -/
theorem photo_bad_mime_rejected_witness :
    fileFilterAccepts filePdf.mimetype = false ∧
    ((postPhotoHandler stOnlyPat 1 (some filePdf) 42).1 = .rejectedInvalidType ∧
     (postPhotoHandler stOnlyPat 1 (some filePdf) 42).2 = stOnlyPat) :=
  ⟨by decide, photo_bad_mime_rejected stOnlyPat 1 filePdf 42 (by decide)⟩

/-- C7 counterexample: a patient with no contact info, no vitals and no
clinical documents but one visit; the composite returns that visit, so the
visits field is not the empty array the claim asserts. -/
theorem full_empty_subrecords_counterexample :
    findPatient dbOneVisit 1 = some pat1 ∧
    dbOneVisit.contact_info = [] ∧
    dbOneVisit.vitals = [] ∧
    dbOneVisit.clinical_documents = [] ∧
    ¬ ((fullProfile? dbOneVisit 1).map (fun p => p.visits) = some []) := by
  decide

/-- C7 amended: for an existing patient with no contact info, no medical
history, no visits, no vitals and no clinical documents, the composite is
the patient with contact_info null, vitals null and the three lists empty. -/
theorem full_all_empty_gives_nulls (db : Database) (id : Nat) (patient : PatientRow)
    (hf : findPatient db id = some patient)
    (hc : db.contact_info.filter (fun r => r.patient_id = id) = [])
    (hm : db.medical_history.filter (fun r => r.patient_id = id) = [])
    (hv : db.visits.filter (fun r => r.patient_id = id) = [])
    (hvi : db.vitals.filter (fun r => r.patient_id = id) = [])
    (hd : db.clinical_documents.filter (fun r => r.patient_id = id) = []) :
    fullProfile? db id =
      some { patient := patient, contact_info := none, clinical_documents := [],
             medical_history := [], visits := [], vitals := none } := by
  rw [fullProfile_of_found db id patient hf]
  rw [hc, hm, hv, hd]
  unfold vitalsDescRows
  rw [hvi]
  rfl

/-- C7 amended witness: the database holding only patient 1. -/
theorem full_all_empty_gives_nulls_witness :
    findPatient dbOnlyPat 1 = some pat1 ∧
    fullProfile? dbOnlyPat 1 =
      some { patient := pat1, contact_info := none, clinical_documents := [],
             medical_history := [], visits := [], vitals := none } :=
  ⟨by decide,
   full_all_empty_gives_nulls dbOnlyPat 1 pat1 (by decide) (by decide) (by decide)
     (by decide) (by decide) (by decide)⟩

/-- C8: inserting a contact payload and then reading the latest contact row
for the same patient returns the inserted row, whose submitted fields equal
the payload; the store-assigned timestamp of the new row is assumed fresher
than every earlier contact row of that patient, which models running the GET
right after the PUT. -/
theorem contact_round_trip (db : Database) (id : Nat) (p : ContactPayload)
    (now : Nat)
    (h : ∀ r ∈ db.contact_info, r.patient_id = id → r.created_at < now) :
    getContactInfo (putContactInfo db id p now).1 id =
      some (putContactInfo db id p now).2 ∧
    contactPayloadOf (putContactInfo db id p now).2 = p := by
  constructor
  · unfold getContactInfo
    rw [take_one_head]
    apply orderByDesc_head_of_strict_max
    · refine List.mem_filter.mpr ⟨?_, by simp [putContactInfo]⟩
      exact List.mem_append_right _ (List.mem_singleton_self _)
    · intro y hy hne
      have hmem := List.mem_filter.mp hy
      have hpid : y.patient_id = id := by simpa using hmem.2
      rcases List.mem_append.mp hmem.1 with hyl | hyr
      · have hlt := h y hyl hpid
        simpa [putContactInfo] using hlt
      · exact absurd (List.mem_singleton.mp hyr) hne
  · rfl

/-- C8 witness: inserting a payload at time 50 over one older contact row and
reading it back. -/
theorem contact_round_trip_witness :
    (∀ r ∈ dbTwoContacts.contact_info, r.patient_id = 1 → r.created_at < 50) ∧
    (getContactInfo (putContactInfo dbTwoContacts 1 payloadW 50).1 1 =
       some (putContactInfo dbTwoContacts 1 payloadW 50).2 ∧
     contactPayloadOf (putContactInfo dbTwoContacts 1 payloadW 50).2 = payloadW) :=
  ⟨by decide, contact_round_trip dbTwoContacts 1 payloadW 50 (by decide)⟩

/-- C9: a valid image upload for an identifier matching no patient still
writes the file to disk, the UPDATE matches zero rows so the patients table
is unchanged, and the handler answers the success body, not a 404. -/
theorem photo_missing_patient_success (st : UploadState) (id : Nat)
    (f : UploadedFile) (now : Nat)
    (hacc : fileFilterAccepts f.mimetype = true)
    (habs : ∀ p ∈ st.db.patients, p.patient_id ≠ id) :
    (postPhotoHandler st id (some f) now).1 =
      .ok ("/uploads/profilephotos/" ++ photoFilename id now (extname f.originalname)) ∧
    (postPhotoHandler st id (some f) now).2.db.patients = st.db.patients ∧
    (postPhotoHandler st id (some f) now).2.disk =
      st.disk ++ [photoFilename id now (extname f.originalname)] := by
  unfold postPhotoHandler
  simp only [hacc, if_true]
  refine ⟨trivial, ?_, trivial⟩
  exact updatePhotoPath_no_match st.db.patients id _ habs

/-- C9 witness: a png upload against the empty database at identifier 9. -/
theorem photo_missing_patient_success_witness :
    fileFilterAccepts filePng.mimetype = true ∧
    (∀ p ∈ stEmpty.db.patients, p.patient_id ≠ 9) ∧
    ((postPhotoHandler stEmpty 9 (some filePng) 42).1 =
       .ok ("/uploads/profilephotos/" ++ photoFilename 9 42 (extname filePng.originalname)) ∧
     (postPhotoHandler stEmpty 9 (some filePng) 42).2.db.patients =
       stEmpty.db.patients ∧
     (postPhotoHandler stEmpty 9 (some filePng) 42).2.disk =
       stEmpty.disk ++ [photoFilename 9 42 (extname filePng.originalname)]) :=
  ⟨by decide, by decide,
   photo_missing_patient_success stEmpty 9 filePng 42 (by decide) (by decide)⟩

/-- C10: with no file part, req.file is undefined and the photo handler
throws before constructing any response, leaving the state unchanged, while
the clinical-documents upload handler guards the missing file and answers
400. -/
theorem photo_missing_file_crashes (st : UploadState) (id : Nat) (now : Nat)
    (docName : String) :
    postPhotoHandler st id none now = (.crashUndefinedFile, st) ∧
    postClinicalDocumentHandler st id docName none now = (.badRequest, st) :=
  ⟨rfl, rfl⟩

end HealthConnect
